import Mathlib

/-
Verification of the mediatr library (Go): a mediator-pattern dispatcher with
a type-keyed handler registry, a behaviour (middleware) pipeline composed
around the handler, and sequential event fan-out.

Shallow embedding notes:
- `reflect.Type` is embedded as `GoType`, a fragment of Go's type system
  (predeclared `int`/`string`, slice types, and defined/named types) with
  Go's notions of type identity (structural equality of the AST, which is
  nominal for defined types), underlying type, assignability, and
  non-interface type-assertion success (`x.(T)` succeeds iff the dynamic
  type is identical to `T`).
- `any` values are embedded as `GoVal`: a dynamic type plus an abstract
  payload (`Nat`). The zero value of any type is abstracted as payload 0.
- Go `error` values are embedded as `Option MErr`; the two errors the
  mediator itself constructs with `fmt.Errorf` are distinguished
  constructors carrying the same type names the format strings carry, and
  caller-supplied errors are `MErr.user`.
- side effects of caller-supplied handler/behaviour/listener bodies are
  embedded by threading an explicit state `σ`; a failed type assertion
  (Go panic) is `Except.error (GoPanic ...)`, which unwinds past the
  mediator code while keeping the state accumulated so far.
- the contextual logger (`Logger(ctx).Error(...)`) is an external
  collaborator with no dispatch-visible effect and is not modelled.
-/

namespace Mediatr

/-- Fragment of Go's type system sufficient for the mediator's use of
`reflect`: predeclared types, slice type literals, and defined types
(`type Name Underlying`). Type identity is structural equality of this AST
(nominal for defined types, structural for type literals), matching Go. -/
inductive GoType where
  | int : GoType
  | str : GoType
  | slice : GoType → GoType
  | defined : String → GoType → GoType
deriving DecidableEq, Repr

/-- Go's underlying type: predeclared types and type literals are their own
underlying type; a defined type's underlying type is the underlying type of
the type in its declaration. -/
def GoType.underlying : GoType → GoType
  | GoType.defined _ u => u.underlying
  | t => t

/-- Whether the type is a named (defined or predeclared) type; slice type
literals are unnamed. -/
def GoType.isNamed : GoType → Bool
  | GoType.int => true
  | GoType.str => true
  | GoType.slice _ => false
  | GoType.defined _ _ => true

/-- `reflect.Type.Name()`: the type's name, `""` for unnamed types. -/
def GoType.name : GoType → String
  | GoType.int => "int"
  | GoType.str => "string"
  | GoType.slice _ => ""
  | GoType.defined n _ => n

/-- Go assignability (`reflect.Type.AssignableTo`) restricted to this
fragment: `x` is assignable to `T` iff they are identical, or they have
identical underlying types and at least one of them is not a named type. -/
def assignableTo (x T : GoType) : Bool :=
  decide (x = T) ||
    (decide (x.underlying = T.underlying) && (!x.isNamed || !T.isNamed))

/-- Success condition of the type assertion `x.(T)` for a value of dynamic
type `x` and a non-interface target `T` (all types of this fragment are
non-interface): the types must be identical. -/
def typeAssertOk (x T : GoType) : Bool :=
  decide (x = T)

/-- A Go `any` value: its dynamic type and an abstract payload. The zero
value of a type is the payload `0`. -/
structure GoVal where
  ty : GoType
  payload : Nat
deriving DecidableEq, Repr

/-- `internal.Zero[T]()`, abstracted to the payload level. -/
def GoType.zeroVal : GoType → Nat := fun _ => 0

/-- Go `error` values observed around the mediator: the two errors the
mediator constructs (carrying the type names its `fmt.Errorf` format
strings carry) and opaque caller-supplied errors. -/
inductive MErr where
  | handlerNotFound : String → MErr
  | wrongResponseType : String → String → String → MErr
  | user : Nat → MErr
deriving DecidableEq, Repr

/-- A Go runtime panic raised by a failed type assertion inside one of the
registration wrappers (or by the response assertion in the generic `Send`). -/
inductive GoPanic where
  | typeAssertionFailed : GoType → GoType → GoPanic
deriving DecidableEq, Repr

/-- An effectful Go computation: explicit state threading plus panic
unwinding (state survives the unwind, as Go side effects do). -/
def Eff (σ α : Type) : Type := σ → Except GoPanic α × σ

/-- `(any, error)`: result shape of handler/behaviour invocations. A `nil`
response is `none`. -/
abbrev GoRes := Option GoVal × Option MErr

/-- `type Next func() (any, error)`. -/
abbrev Next (σ : Type) := Eff σ GoRes

instance {ε α : Type} [DecidableEq ε] [DecidableEq α] : DecidableEq (Except ε α) := fun a b =>
  match a, b with
  | Except.ok x, Except.ok y =>
      if h : x = y then isTrue (by rw [h]) else isFalse (by intro hh; cases hh; exact h rfl)
  | Except.error x, Except.error y =>
      if h : x = y then isTrue (by rw [h]) else isFalse (by intro hh; cases hh; exact h rfl)
  | Except.ok _, Except.error _ => isFalse (by intro hh; cases hh)
  | Except.error _, Except.ok _ => isFalse (by intro hh; cases hh)

/-- `eventHandlerInfo`: the registered event type and the stored wrapper. -/
structure eventHandlerInfo (σ : Type) where
  eventType : GoType
  eventHandlerFunc : GoVal → Eff σ (Option MErr)

/-- `behaviourInfo`: the behaviour's applies-to type and the stored wrapper. -/
structure behaviourInfo (σ : Type) where
  requestType : GoType
  behaviourFunc : GoVal → Next σ → Eff σ GoRes

/-- `handlerInfo`: request type, declared response type, stored wrapper. -/
structure handlerInfo (σ : Type) where
  requestType : GoType
  responseType : GoType
  handlerFunc : GoVal → Eff σ GoRes

/-- The `mediator` struct. Go maps are embedded as functions returning
`Option`, so the two-valued `value, ok := m[k]` lookup is `none`/`some`. -/
structure mediator (σ : Type) where
  handlers : GoType → Option (handlerInfo σ)
  behaviours : List (behaviourInfo σ)
  eventHandlers : GoType → Option (List (eventHandlerInfo σ))

/-- `NewMediator()`: empty registries. -/
def NewMediator (σ : Type) : mediator σ :=
  { handlers := fun _ => none
    behaviours := []
    eventHandlers := fun _ => none }

/-- The closure built by `RegisterHandler`: asserts the request to
`TRequest` (panicking on failure, as Go does), runs the typed handler on
the payload, and boxes the typed `TResponse` result back into `any`. -/
def handlerWrap {σ : Type} (TRequest TResponse : GoType)
    (handler : Nat → Eff σ (Nat × Option MErr)) : GoVal → Eff σ GoRes :=
  fun request s =>
    if typeAssertOk request.ty TRequest then
      match handler request.payload s with
      | (Except.ok (v, e), s1) => (Except.ok (some ⟨TResponse, v⟩, e), s1)
      | (Except.error pk, s1) => (Except.error pk, s1)
    else (Except.error (GoPanic.typeAssertionFailed request.ty TRequest), s)

/-- The closure built by `RegisterBehaviour`: asserts the request to
`TRequest` (panicking on failure) and runs the typed behaviour. -/
def behaviourWrap {σ : Type} (TRequest : GoType)
    (behaviour : Nat → Next σ → Eff σ GoRes) : GoVal → Next σ → Eff σ GoRes :=
  fun request next s =>
    if typeAssertOk request.ty TRequest then behaviour request.payload next s
    else (Except.error (GoPanic.typeAssertionFailed request.ty TRequest), s)

/-- The closure built by `RegisterEventHandler`: asserts the event to
`TEvent` (panicking on failure) and runs the typed listener. -/
def listenerWrap {σ : Type} (TEvent : GoType)
    (eventHandler : Nat → Eff σ (Option MErr)) : GoVal → Eff σ (Option MErr) :=
  fun evt s =>
    if typeAssertOk evt.ty TEvent then eventHandler evt.payload s
    else (Except.error (GoPanic.typeAssertionFailed evt.ty TEvent), s)

/-- The `handlerInfo` record `RegisterHandler` stores. -/
def mkHandlerInfo {σ : Type} (TRequest TResponse : GoType)
    (handler : Nat → Eff σ (Nat × Option MErr)) : handlerInfo σ :=
  { requestType := TRequest
    responseType := TResponse
    handlerFunc := handlerWrap TRequest TResponse handler }

/-- The `behaviourInfo` record `RegisterBehaviour` stores. -/
def mkBehaviourInfo {σ : Type} (TRequest : GoType)
    (behaviour : Nat → Next σ → Eff σ GoRes) : behaviourInfo σ :=
  { requestType := TRequest
    behaviourFunc := behaviourWrap TRequest behaviour }

/-- The `eventHandlerInfo` record `RegisterEventHandler` stores. -/
def mkEventHandlerInfo {σ : Type} (TEvent : GoType)
    (eventHandler : Nat → Eff σ (Option MErr)) : eventHandlerInfo σ :=
  { eventType := TEvent
    eventHandlerFunc := listenerWrap TEvent eventHandler }

/-- `RegisterHandler[TRequest, TResponse]`: inserts/overwrites the single
handler entry keyed by `TRequest`. -/
def RegisterHandler {σ : Type} (m : mediator σ) (TRequest TResponse : GoType)
    (handler : Nat → Eff σ (Nat × Option MErr)) : mediator σ :=
  { m with handlers := fun t =>
      if t = TRequest then some (mkHandlerInfo TRequest TResponse handler)
      else m.handlers t }

/-- `RegisterBehaviour[TRequest]`: appends to the behaviour sequence. -/
def RegisterBehaviour {σ : Type} (m : mediator σ) (TRequest : GoType)
    (behaviour : Nat → Next σ → Eff σ GoRes) : mediator σ :=
  { m with behaviours := m.behaviours ++ [mkBehaviourInfo TRequest behaviour] }

/-- `RegisterEventHandler[TEvent]`: appends to the listener sequence for
`TEvent`, creating it on first use. -/
def RegisterEventHandler {σ : Type} (m : mediator σ) (TEvent : GoType)
    (eventHandler : Nat → Eff σ (Option MErr)) : mediator σ :=
  let eventHandlers := (m.eventHandlers TEvent).getD []
  let eventHandlers2 := eventHandlers ++ [mkEventHandlerInfo TEvent eventHandler]
  { m with eventHandlers := fun t =>
      if t = TEvent then some eventHandlers2 else m.eventHandlers t }

/-- The listener loop inside `mediator.SendEvent`: invoke each listener in
order; on the first non-nil error return it immediately (a panic unwinds). -/
def runListeners {σ : Type} : List (eventHandlerInfo σ) → GoVal → Eff σ (Option MErr)
  | [], _ => fun s => (Except.ok none, s)
  | h :: rest, evt => fun s =>
      match h.eventHandlerFunc evt s with
      | (Except.ok none, s1) => runListeners rest evt s1
      | (Except.ok (some e), s1) => (Except.ok (some e), s1)
      | (Except.error pk, s1) => (Except.error pk, s1)

/-- `(m *mediator) SendEvent`: look up the listener list for the event's
type; absent means success with nothing called; otherwise run the loop. -/
def mediator.SendEvent {σ : Type} (m : mediator σ) (evt : GoVal)
    (eventType : GoType) : Eff σ (Option MErr) :=
  fun s =>
    match m.eventHandlers eventType with
    | none => (Except.ok none, s)
    | some eventHandlers => runListeners eventHandlers evt s

/-- Generic `SendEvent[TEvent]`: dispatches under the static type `TEvent`
(the boxed event's dynamic type in this interface-free fragment). -/
def SendEvent {σ : Type} (TEvent : GoType) (m : mediator σ) (evt : Nat) :
    Eff σ (Option MErr) :=
  m.SendEvent ⟨TEvent, evt⟩ TEvent

/-- The accumulator loop inside `mediator.getBehaviours`: appends each
stored behaviour whose applies-to type the request type is assignable to. -/
def getBehavioursLoop {σ : Type} (requestType : GoType) :
    List (behaviourInfo σ) → List (behaviourInfo σ) → List (behaviourInfo σ)
  | [], result => result
  | b :: rest, result =>
      if assignableTo requestType b.requestType then
        getBehavioursLoop requestType rest (result ++ [b])
      else getBehavioursLoop requestType rest result

/-- `(m *mediator) getBehaviours`. -/
def mediator.getBehaviours {σ : Type} (m : mediator σ) (requestType : GoType) :
    List (behaviourInfo σ) :=
  getBehavioursLoop requestType m.behaviours []

/-- The chain-building loop inside `mediator.Send`: starting from the
handler step, wrap it with the matching behaviours from the last down to
the first, so the first-registered behaviour ends up outermost. This
recursion produces exactly the loop's final `step`. -/
def composeSteps {σ : Type} (request : GoVal) :
    List (behaviourInfo σ) → Next σ → Next σ
  | [], step => step
  | b :: rest, step => fun s =>
      b.behaviourFunc request (composeSteps request rest step) s

/-- The tail of `mediator.Send` after the pipeline has run:
`response, err = step(); if err != nil { return nil, err };
return response, err` (a panic keeps unwinding). -/
def finishSend {σ : Type} :
    Except GoPanic GoRes × σ → Except GoPanic GoRes × σ
  | (Except.ok (_response, some e), s1) => (Except.ok (none, some e), s1)
  | (Except.ok (response, none), s1) => (Except.ok (response, none), s1)
  | (Except.error pk, s1) => (Except.error pk, s1)

/-- `(m *mediator) Send`: handler lookup, response-type check, pipeline
composition and invocation, and the final `if err != nil return nil, err`. -/
def mediator.Send {σ : Type} (m : mediator σ) (request : GoVal)
    (requestType responseType : GoType) : Eff σ GoRes :=
  fun s =>
    match m.handlers requestType with
    | none =>
        (Except.ok (none, some (MErr.handlerNotFound requestType.name)), s)
    | some info =>
        if info.responseType ≠ responseType then
          (Except.ok (none, some (MErr.wrongResponseType responseType.name
            requestType.name info.responseType.name)), s)
        else
          finishSend (composeSteps request (m.getBehaviours requestType)
            (fun s2 => info.handlerFunc request s2) s)

/-- `if response == nil { response = internal.Zero[TResponse]() }` in the
generic `Send`: substitute the boxed zero value for a `nil` response. -/
def orZero (TResponse : GoType) : Option GoVal → GoVal
  | none => ⟨TResponse, GoType.zeroVal TResponse⟩
  | some v => v

/-- The tail of the generic `Send` after `m.Send` returns: the `nil`
substitution followed by the unboxing assertion `response.(TResponse)`
(a panic on mismatch; an incoming panic keeps unwinding). -/
def unboxResponse {σ : Type} (TResponse : GoType) :
    Except GoPanic GoRes × σ → Except GoPanic (Nat × Option MErr) × σ
  | (Except.error pk, s1) => (Except.error pk, s1)
  | (Except.ok (response, err), s1) =>
      if typeAssertOk (orZero TResponse response).ty TResponse then
        (Except.ok ((orZero TResponse response).payload, err), s1)
      else
        (Except.error (GoPanic.typeAssertionFailed
          (orZero TResponse response).ty TResponse), s1)

/-- Generic `Send[TResponse]`: dispatches under the request's dynamic type,
substitutes the zero value for a `nil` response, and unboxes the response. -/
def Send {σ : Type} (TResponse : GoType) (m : mediator σ) (request : GoVal) :
    Eff σ (Nat × Option MErr) :=
  fun s =>
    unboxResponse TResponse (m.Send request request.ty TResponse s)

/-- Mediators reachable from `NewMediator` by the registration API; the
stored wrappers of such mediators are exactly the registration closures. -/
inductive WellFormed {σ : Type} : mediator σ → Prop where
  | new : WellFormed (NewMediator σ)
  | regHandler {m : mediator σ} (T R : GoType) (f : Nat → Eff σ (Nat × Option MErr)) :
      WellFormed m → WellFormed (RegisterHandler m T R f)
  | regBehaviour {m : mediator σ} (T : GoType) (f : Nat → Next σ → Eff σ GoRes) :
      WellFormed m → WellFormed (RegisterBehaviour m T f)
  | regEvent {m : mediator σ} (T : GoType) (f : Nat → Eff σ (Option MErr)) :
      WellFormed m → WellFormed (RegisterEventHandler m T f)

theorem typeAssertOk_self (T : GoType) : typeAssertOk T T = true := by
  simp [typeAssertOk]

theorem assignableTo_self (T : GoType) : assignableTo T T = true := by
  simp [assignableTo]

theorem getBehavioursLoop_eq {σ : Type} (T : GoType)
    (bs acc : List (behaviourInfo σ)) :
    getBehavioursLoop T bs acc
      = acc ++ bs.filter (fun b => assignableTo T b.requestType) := by
  induction bs generalizing acc with
  | nil => simp [getBehavioursLoop]
  | cons b rest ih =>
      by_cases h : assignableTo T b.requestType = true
      · simp [getBehavioursLoop, h, ih]
      · simp [getBehavioursLoop, h, ih]

theorem getBehaviours_eq_filter {σ : Type} (m : mediator σ) (T : GoType) :
    m.getBehaviours T
      = m.behaviours.filter (fun b => assignableTo T b.requestType) := by
  simp [mediator.getBehaviours, getBehavioursLoop_eq]

/-- Test-harness behaviour shape used in the ordering claim: run `pre` on
the state, call `next` exactly once, run `post` on the state, and return
the result of `next` untouched. -/
def onionB {σ : Type} (pre post : σ → σ) : Nat → Next σ → Eff σ GoRes :=
  fun _ next s =>
    match next (pre s) with
    | (Except.ok r, s1) => (Except.ok r, post s1)
    | (Except.error pk, s1) => (Except.error pk, s1)

/-- Test-harness handler shape: perform a state effect and return a fixed
response payload with a nil error. -/
def effHandler {σ : Type} (hEff : σ → σ) (hv : Nat) :
    Nat → Eff σ (Nat × Option MErr) :=
  fun _ s => (Except.ok (hv, none), hEff s)

/-- Claim C1: for a handler `H` and behaviours `B1, B2` registered in that
order for the same request type, `Send` runs `B1`'s pre-`next` effect, then
`B2`'s, then `H`, then `B2`'s post-`next` effect, then `B1`'s — behaviours
run in registration order before the handler and their post-`next` logic in
reverse registration order, for arbitrary state type, stage effects, and
initial state. -/
theorem c1_pipeline_order (σ : Type) (T R : GoType)
    (pre1 post1 pre2 post2 hEff : σ → σ) (hv p : Nat) (s : σ) :
    Send R
      (RegisterBehaviour
        (RegisterBehaviour
          (RegisterHandler (NewMediator σ) T R (effHandler hEff hv))
          T (onionB pre1 post1))
        T (onionB pre2 post2))
      ⟨T, p⟩ s
    = (Except.ok (hv, none), post1 (post2 (hEff (pre2 (pre1 s))))) := by
  simp [Send, mediator.Send, RegisterHandler, RegisterBehaviour, NewMediator,
    mkHandlerInfo, mkBehaviourInfo, handlerWrap, behaviourWrap, onionB,
    effHandler, composeSteps, mediator.getBehaviours, getBehavioursLoop,
    finishSend, unboxResponse, orZero, typeAssertOk, assignableTo,
    GoType.zeroVal]

/-- Test-harness handler for the C2 counterexample: returns the non-zero
response payload 7 together with a non-nil error. -/
def c2Handler : Nat → Eff Unit (Nat × Option MErr) :=
  fun _ s => (Except.ok (7, some (MErr.user 1)), s)

/-- Mediator with that single handler registered for `int` requests and no
behaviours. -/
def c2Mediator : mediator Unit :=
  RegisterHandler (NewMediator Unit) GoType.int GoType.int c2Handler

/-- Claim C2, counterexample: with no behaviours registered, a handler that
returns the pair `(7, err)` with a non-nil `err` — `Send` does not return
that pair; it returns `(0, err)`, the zero response value alongside the
error. -/
theorem c2_counterexample :
    c2Handler 0 () = (Except.ok (7, some (MErr.user 1)), ()) ∧
    Send GoType.int c2Mediator ⟨GoType.int, 0⟩ ()
      = (Except.ok (0, some (MErr.user 1)), ()) ∧
    Send GoType.int c2Mediator ⟨GoType.int, 0⟩ () ≠ c2Handler 0 () := by
  refine ⟨rfl, by decide, by decide⟩

/-- Claim C2, amended: for every registered `(requestType, handlerFn)` with
no behaviours matching the request type, `Send` called with a request of
that runtime type and the declared response type returns exactly the pair
`handlerFn` returns whenever its error is nil; when `handlerFn` returns a
non-nil error, `Send` returns that error together with the zero value of
the expected response type in place of the handler's response value (and a
panic inside `handlerFn` propagates unchanged). -/
theorem c2_amended (σ : Type) (m0 : mediator σ) (T R : GoType)
    (f : Nat → Eff σ (Nat × Option MErr)) (p : Nat) (s : σ)
    (hb : (RegisterHandler m0 T R f).getBehaviours T = []) :
    Send R (RegisterHandler m0 T R f) ⟨T, p⟩ s
      = match f p s with
        | (Except.ok (v, none), s1) => (Except.ok (v, none), s1)
        | (Except.ok (_, some e), s1) => (Except.ok (GoType.zeroVal R, some e), s1)
        | (Except.error pk, s1) => (Except.error pk, s1) := by
  have hb2 : getBehavioursLoop T m0.behaviours ([] : List (behaviourInfo σ)) = [] := hb
  rcases hf : f p s with ⟨r, s1⟩
  cases r with
  | ok ve =>
      rcases ve with ⟨v, e⟩
      cases e with
      | none =>
          simp [Send, mediator.Send, RegisterHandler, mkHandlerInfo, handlerWrap,
            mediator.getBehaviours, hb2, hf, composeSteps, finishSend,
            unboxResponse, orZero, typeAssertOk, GoType.zeroVal]
      | some e =>
          simp [Send, mediator.Send, RegisterHandler, mkHandlerInfo, handlerWrap,
            mediator.getBehaviours, hb2, hf, composeSteps, finishSend,
            unboxResponse, orZero, typeAssertOk, GoType.zeroVal]
  | error pk =>
      simp [Send, mediator.Send, RegisterHandler, mkHandlerInfo, handlerWrap,
        mediator.getBehaviours, hb2, hf, composeSteps, finishSend,
        unboxResponse, orZero, typeAssertOk, GoType.zeroVal]

/-- Test-harness handler for the C2 amended witness: adds 4 to its request
payload and returns a nil error. -/
def c2wHandler : Nat → Eff Unit (Nat × Option MErr) :=
  fun p s => (Except.ok (p + 4, none), s)

theorem c2_amended_witness :
    Send GoType.int
      (RegisterHandler (NewMediator Unit) GoType.int GoType.int c2wHandler)
      ⟨GoType.int, 1⟩ ()
      = (Except.ok (5, none), ()) :=
  c2_amended Unit (NewMediator Unit) GoType.int GoType.int c2wHandler 1 () rfl

/-- Claim C3: a request whose runtime type has no registered handler fails
with the handler-not-found error carrying the request type's name, the
response is the zero value, and no handler and no behaviour is invoked (the
state comes back untouched, for every mediator and initial state). -/
theorem c3_handler_not_found (σ : Type) (m : mediator σ) (R : GoType)
    (request : GoVal) (s : σ) (h : m.handlers request.ty = none) :
    Send R m request s
      = (Except.ok (GoType.zeroVal R,
          some (MErr.handlerNotFound request.ty.name)), s) := by
  simp [Send, mediator.Send, h, unboxResponse, orZero, typeAssertOk, GoType.zeroVal]

theorem c3_witness :
    Send GoType.int (NewMediator Unit) ⟨GoType.int, 0⟩ ()
      = (Except.ok (GoType.zeroVal GoType.int,
          some (MErr.handlerNotFound "int")), ()) :=
  c3_handler_not_found Unit (NewMediator Unit) GoType.int ⟨GoType.int, 0⟩ () rfl

/-- Claim C4: when the registered handler's declared response type differs
(by exact type identity) from the caller's expected response type, `Send`
fails with the wrong-response-type error carrying the expected, request,
and declared type names, the response is the zero value, and neither the
handler nor any behaviour is invoked (the state comes back untouched). -/
theorem c4_response_type_mismatch (σ : Type) (m : mediator σ)
    (info : handlerInfo σ) (R : GoType) (request : GoVal) (s : σ)
    (h : m.handlers request.ty = some info) (hne : info.responseType ≠ R) :
    Send R m request s
      = (Except.ok (GoType.zeroVal R,
          some (MErr.wrongResponseType R.name request.ty.name
            info.responseType.name)), s) := by
  simp [Send, mediator.Send, h, hne, unboxResponse, orZero, typeAssertOk, GoType.zeroVal]

/-- Test-harness handler for the C4 witness. -/
def c4wHandler : Nat → Eff Unit (Nat × Option MErr) :=
  fun _ s => (Except.ok (3, none), s)

theorem c4_witness :
    Send GoType.int
      (RegisterHandler (NewMediator Unit) GoType.int GoType.str c4wHandler)
      ⟨GoType.int, 0⟩ ()
      = (Except.ok (0, some (MErr.wrongResponseType "int" "int" "string")), ()) :=
  c4_response_type_mismatch Unit
    (RegisterHandler (NewMediator Unit) GoType.int GoType.str c4wHandler)
    (mkHandlerInfo GoType.int GoType.str c4wHandler)
    GoType.int ⟨GoType.int, 0⟩ () rfl (by decide)

/-- Claim C5: event fan-out — dispatch for an event type with no registered
listener list returns nil with nothing run (state untouched); dispatch with
a registered list is exactly the sequential loop over that list in
registration order; a prefix of listeners that all return nil hands the
loop on to the remaining listeners with the accumulated state; and once a
listener returns a non-nil error the loop returns that error immediately
and the listeners after it are never invoked (the result does not depend on
them at all). -/
theorem c5_event_fanout (σ : Type) (m : mediator σ) (T : GoType) (p : Nat) (s : σ) :
    (m.eventHandlers T = none → SendEvent T m p s = (Except.ok none, s)) ∧
    (∀ hs, m.eventHandlers T = some hs →
      SendEvent T m p s = runListeners hs ⟨T, p⟩ s) ∧
    (∀ (hs1 hs2 : List (eventHandlerInfo σ)) (evt : GoVal) (s0 s1 : σ),
      runListeners hs1 evt s0 = (Except.ok none, s1) →
      runListeners (hs1 ++ hs2) evt s0 = runListeners hs2 evt s1) ∧
    (∀ (hs1 hs2 : List (eventHandlerInfo σ)) (evt : GoVal) (s0 s1 : σ) (e : MErr),
      runListeners hs1 evt s0 = (Except.ok (some e), s1) →
      runListeners (hs1 ++ hs2) evt s0 = (Except.ok (some e), s1)) := by
  refine ⟨?_, ?_, ?_, ?_⟩
  · intro h
    simp [SendEvent, mediator.SendEvent, h]
  · intro hs h
    simp [SendEvent, mediator.SendEvent, h]
  · intro hs1
    induction hs1 with
    | nil =>
        intro hs2 evt s0 s1 h
        simp only [runListeners] at h
        injection h with h1 h2
        subst h2
        simp
    | cons hd tl ih =>
        intro hs2 evt s0 s1 h
        rcases hh : hd.eventHandlerFunc evt s0 with ⟨r, s2⟩
        cases r with
        | ok o =>
            cases o with
            | none =>
                simp only [runListeners, hh, List.cons_append] at h ⊢
                exact ih hs2 evt s2 s1 h
            | some e =>
                simp only [runListeners, hh] at h
                simp at h
        | error pk =>
            simp only [runListeners, hh] at h
            simp at h
  · intro hs1
    induction hs1 with
    | nil =>
        intro hs2 evt s0 s1 e h
        simp only [runListeners] at h
        simp at h
    | cons hd tl ih =>
        intro hs2 evt s0 s1 e h
        rcases hh : hd.eventHandlerFunc evt s0 with ⟨r, s2⟩
        cases r with
        | ok o =>
            cases o with
            | none =>
                simp only [runListeners, hh, List.cons_append] at h ⊢
                exact ih hs2 evt s2 s1 e h
            | some e2 =>
                simp only [runListeners, hh, List.cons_append] at h ⊢
                exact h
        | error pk =>
            simp only [runListeners, hh] at h
            simp at h

/-- Test-harness listener: records stage 1 in the trace and succeeds. -/
def c5Listener1 : Nat → Eff (List Nat) (Option MErr) :=
  fun _ s => (Except.ok none, s ++ [1])

/-- Test-harness listener: records stage 2 and returns an error. -/
def c5Listener2 : Nat → Eff (List Nat) (Option MErr) :=
  fun _ s => (Except.ok (some (MErr.user 2)), s ++ [2])

/-- Test-harness listener: records stage 3 and succeeds. -/
def c5Listener3 : Nat → Eff (List Nat) (Option MErr) :=
  fun _ s => (Except.ok none, s ++ [3])

/-- Three listeners for `int` events, registered in order 1, 2, 3. -/
def c5Mediator : mediator (List Nat) :=
  RegisterEventHandler
    (RegisterEventHandler
      (RegisterEventHandler (NewMediator (List Nat)) GoType.int c5Listener1)
      GoType.int c5Listener2)
    GoType.int c5Listener3

theorem c5_witness :
    SendEvent GoType.int c5Mediator 0 []
      = (Except.ok (some (MErr.user 2)), [1, 2]) ∧
    SendEvent GoType.str c5Mediator 0 [] = (Except.ok none, ([] : List Nat)) := by
  constructor
  · have h := (c5_event_fanout (List Nat) c5Mediator GoType.int 0 []).2.1
      [mkEventHandlerInfo GoType.int c5Listener1,
       mkEventHandlerInfo GoType.int c5Listener2,
       mkEventHandlerInfo GoType.int c5Listener3] rfl
    rw [h]
    rfl
  · exact (c5_event_fanout (List Nat) c5Mediator GoType.str 0 []).1 rfl

theorem finishSend_no_response_with_error {σ : Type}
    (x : Except GoPanic GoRes × σ) (v : GoVal) (e : MErr) (s1 : σ)
    (h : finishSend x = (Except.ok (some v, some e), s1)) : False := by
  rcases x with ⟨r, s0⟩
  rcases r with pk | ⟨resp, err⟩
  · simp [finishSend] at h
  · rcases err with _ | e2 <;> simp [finishSend] at h

theorem mediatorSend_no_response_with_error {σ : Type} (m : mediator σ)
    (request : GoVal) (rt R : GoType) (s s1 : σ) (v : GoVal) (e : MErr)
    (h : m.Send request rt R s = (Except.ok (some v, some e), s1)) : False := by
  simp only [mediator.Send] at h
  split at h
  · simp at h
  · split at h
    · simp at h
    · exact finishSend_no_response_with_error _ v e s1 h

/-- Claim C6: `Send` is atomic-or-nothing — whenever it returns a non-nil
error, the returned response value is the zero value of the expected
response type (any response the pipeline produced alongside the error was
discarded); and when the pipeline produced a nil response with a nil error,
the zero value is substituted as well. -/
theorem c6_atomic_or_nothing (σ : Type) (m : mediator σ) (R : GoType)
    (request : GoVal) (s : σ) :
    (∀ (v : Nat) (e : MErr) (s1 : σ),
      Send R m request s = (Except.ok (v, some e), s1) →
      v = GoType.zeroVal R) ∧
    (∀ s1 : σ,
      m.Send request request.ty R s = (Except.ok (none, none), s1) →
      Send R m request s = (Except.ok (GoType.zeroVal R, none), s1)) := by
  constructor
  · intro v e s1 h
    simp only [Send] at h
    rcases hc : m.Send request request.ty R s with ⟨r, s2⟩
    rw [hc] at h
    rcases r with pk | ⟨resp, err⟩
    · simp [unboxResponse] at h
    · rcases resp with _ | v2
      · simp_all [unboxResponse, orZero, typeAssertOk, GoType.zeroVal]
      · rcases err with _ | e2
        · simp only [unboxResponse, orZero] at h
          split at h <;> simp_all
        · exact absurd hc
            (fun hh => mediatorSend_no_response_with_error m request
              request.ty R s s2 v2 e2 hh)
  · intro s1 h
    simp only [Send]
    rw [h]
    simp [unboxResponse, orZero, typeAssertOk, GoType.zeroVal]

/-- Test-harness handler for the C6 witness: a non-zero response together
with a non-nil error. -/
def c6Handler : Nat → Eff Unit (Nat × Option MErr) :=
  fun _ s => (Except.ok (9, some (MErr.user 3)), s)

def c6Mediator : mediator Unit :=
  RegisterHandler (NewMediator Unit) GoType.int GoType.int c6Handler

/-- Test-harness behaviour for the C6 witness: short-circuits the pipeline
returning `(nil, nil)`. -/
def c6bBehaviour : Nat → Next Unit → Eff Unit GoRes :=
  fun _ _ s => (Except.ok (none, none), s)

def c6bMediator : mediator Unit :=
  RegisterBehaviour
    (RegisterHandler (NewMediator Unit) GoType.int GoType.int c6Handler)
    GoType.int c6bBehaviour

theorem c6_witness :
    GoType.zeroVal GoType.int = 0 ∧
    Send GoType.int c6bMediator ⟨GoType.int, 0⟩ ()
      = (Except.ok (GoType.zeroVal GoType.int, none), ()) := by
  constructor
  · exact ((c6_atomic_or_nothing Unit c6Mediator GoType.int ⟨GoType.int, 0⟩ ()).1
      0 (MErr.user 3) () (by decide)).symm
  · exact (c6_atomic_or_nothing Unit c6bMediator GoType.int ⟨GoType.int, 0⟩ ()).2
      () (by decide)

theorem composeSteps_append {σ : Type} (request : GoVal)
    (bs1 bs2 : List (behaviourInfo σ)) (step : Next σ) :
    composeSteps request (bs1 ++ bs2) step
      = composeSteps request bs1 (composeSteps request bs2 step) := by
  induction bs1 with
  | nil => rfl
  | cons b rest ih =>
      funext s
      simp [composeSteps, ih]

/-- Claim C7: if some matching behaviour returns without calling `next`
(its result does not depend on the continuation it is handed), then the
handler and every matching behaviour after it are not invoked — the
dispatch result is computed from the earlier behaviours and the
short-circuiting value alone — and, subject to the pre-invocation checks
passing, `mediator.Send` returns the short-circuiting behaviour's value
directly (through its final error check only). -/
theorem c7_short_circuit (σ : Type) (m : mediator σ) (request : GoVal)
    (R : GoType) (info : handlerInfo σ) (bs1 bs2 : List (behaviourInfo σ))
    (b : behaviourInfo σ) (g : Next σ) (s : σ)
    (hl : m.handlers request.ty = some info)
    (hr : info.responseType = R)
    (hsplit : m.getBehaviours request.ty = bs1 ++ b :: bs2)
    (hg : ∀ next : Next σ, b.behaviourFunc request next = g) :
    m.Send request request.ty R s
      = finishSend (composeSteps request bs1 g s) := by
  have hbs : composeSteps request (b :: bs2)
      (fun s2 => info.handlerFunc request s2) = g := by
    funext s0
    simp only [composeSteps]
    rw [hg]
  simp only [mediator.Send, hl, hr, hsplit, composeSteps_append, hbs]
  simp

/-- Test-harness handler for the C7 witness. -/
def c7Handler : Nat → Eff Unit (Nat × Option MErr) :=
  fun _ s => (Except.ok (5, none), s)

/-- Test-harness behaviour for the C7 witness: returns its own response
without calling `next`. -/
def c7Short : Nat → Next Unit → Eff Unit GoRes :=
  fun _ _ s => (Except.ok (some ⟨GoType.int, 9⟩, none), s)

/-- Test-harness behaviour for the C7 witness: registered after the
short-circuiting one; must never run. -/
def c7After : Nat → Next Unit → Eff Unit GoRes :=
  fun _ next s => next s

def c7Mediator : mediator Unit :=
  RegisterBehaviour
    (RegisterBehaviour
      (RegisterHandler (NewMediator Unit) GoType.int GoType.int c7Handler)
      GoType.int c7Short)
    GoType.int c7After

theorem c7_witness :
    c7Mediator.Send ⟨GoType.int, 0⟩ GoType.int GoType.int ()
      = (Except.ok (some ⟨GoType.int, 9⟩, none), ()) :=
  c7_short_circuit Unit c7Mediator ⟨GoType.int, 0⟩ GoType.int
    (mkHandlerInfo GoType.int GoType.int c7Handler) []
    [mkBehaviourInfo GoType.int c7After]
    (mkBehaviourInfo GoType.int c7Short)
    (fun s => (Except.ok (some ⟨GoType.int, 9⟩, none), s)) ()
    rfl rfl rfl (fun _ => rfl)

/-- Claim C8: registering a second handler for an already-registered
request type silently replaces the earlier one — the doubly-registered
mediator equals the mediator holding only the later registration (the map
keeps at most one entry per request type by construction), so every
subsequent `Send`, on any request, observes only the latest handler. -/
theorem c8_last_write_wins (σ : Type) (m : mediator σ) (T R1 R2 : GoType)
    (f1 f2 : Nat → Eff σ (Nat × Option MErr)) :
    RegisterHandler (RegisterHandler m T R1 f1) T R2 f2
      = RegisterHandler m T R2 f2 ∧
    ∀ (R : GoType) (request : GoVal) (s : σ),
      Send R (RegisterHandler (RegisterHandler m T R1 f1) T R2 f2) request s
        = Send R (RegisterHandler m T R2 f2) request s := by
  have h : RegisterHandler (RegisterHandler m T R1 f1) T R2 f2
      = RegisterHandler m T R2 f2 := by
    unfold RegisterHandler
    congr 1
    funext t
    by_cases ht : t = T
    · simp [ht]
    · simp [ht]
  exact ⟨h, fun R request s => by rw [h]⟩

/-- Claim C9: the matching-behaviour sequence used to compose the pipeline
is exactly the ordered filter of the registered behaviours by "the request
type is assignable to the behaviour's declared applies-to type" — every
assignable behaviour (including one registered against a broader type the
request type is merely assignable to) is kept, all others are dropped, and
the original registration order is preserved (the result is a sublist of
the registration sequence). -/
theorem c9_matching_behaviours (σ : Type) (m : mediator σ) (T : GoType) :
    m.getBehaviours T
      = m.behaviours.filter (fun b => assignableTo T b.requestType) ∧
    List.Sublist (m.getBehaviours T) m.behaviours := by
  refine ⟨getBehaviours_eq_filter m T, ?_⟩
  rw [getBehaviours_eq_filter]
  exact List.filter_sublist m.behaviours

theorem wf_handlers {σ : Type} {m : mediator σ} (hm : WellFormed m) :
    ∀ (rt : GoType) (info : handlerInfo σ), m.handlers rt = some info →
      info.requestType = rt ∧
      ∃ f, info = mkHandlerInfo rt info.responseType f := by
  induction hm with
  | new =>
      intro rt info h
      exact absurd h (by simp [NewMediator])
  | regHandler T R f hm ih =>
      intro rt info h
      by_cases ht : rt = T
      · subst ht
        simp [RegisterHandler] at h
        subst h
        exact ⟨rfl, f, rfl⟩
      · simp [RegisterHandler, ht] at h
        exact ih rt info h
  | regBehaviour T f hm ih =>
      intro rt info h
      exact ih rt info h
  | regEvent T f hm ih =>
      intro rt info h
      exact ih rt info h

theorem wf_events {σ : Type} {m : mediator σ} (hm : WellFormed m) :
    ∀ (et : GoType) (hs : List (eventHandlerInfo σ)),
      m.eventHandlers et = some hs →
      ∀ info ∈ hs, info.eventType = et ∧ ∃ f, info = mkEventHandlerInfo et f := by
  induction hm with
  | new =>
      intro et hs h
      exact absurd h (by simp [NewMediator])
  | regHandler T R f hm ih => exact ih
  | regBehaviour T f hm ih => exact ih
  | regEvent T f hm ih =>
      rename_i m2
      intro et hs h info hin
      by_cases ht : et = T
      · subst ht
        simp [RegisterEventHandler] at h
        subst h
        rcases List.mem_append.mp hin with hold | hnew
        · rcases hh : m2.eventHandlers et with _ | old
          · rw [hh] at hold
            simp at hold
          · rw [hh] at hold
            exact ih et old hh info (by simpa using hold)
        · have : info = mkEventHandlerInfo et f := by simpa using hnew
          subst this
          exact ⟨rfl, f, rfl⟩
      · simp only [RegisterEventHandler, if_neg ht] at h
        exact ih et hs h info hin

theorem wf_behaviours {σ : Type} {m : mediator σ} (hm : WellFormed m) :
    ∀ b ∈ m.behaviours, ∃ T f, b = mkBehaviourInfo T f := by
  induction hm with
  | new =>
      intro b hb
      simp [NewMediator] at hb
  | regHandler T R f hm ih => exact ih
  | regBehaviour T f hm ih =>
      intro b hb
      simp only [RegisterBehaviour, List.mem_append] at hb
      rcases hb with hb | hb
      · exact ih b hb
      · have : b = mkBehaviourInfo T f := by simpa using hb
        subst this
        exact ⟨T, f, rfl⟩
  | regEvent T f hm ih => exact ih

/-- Claim C10, amended: in a mediator built through the registration API,
every stored handler entry under lookup key `k` is a registration wrapper
asserting exactly `k`, so for a dispatched request — whose dynamic type is
the lookup key — the handler assertion succeeds; likewise every listener
stored under key `k` asserts exactly `k`, and `SendEvent` looks listeners
up under exactly the event's type, so listener assertions succeed. A
matching behaviour's assertion is guaranteed to succeed only when its
applies-to type is identical to the request type; a behaviour matched
merely by assignability can fail its assertion (see the counterexample). -/
theorem c10_assertions (σ : Type) (m : mediator σ) (hm : WellFormed m) :
    (∀ (rt : GoType) (info : handlerInfo σ), m.handlers rt = some info →
      info.requestType = rt ∧
      (∃ f, info.handlerFunc = handlerWrap rt info.responseType f) ∧
      ∀ request : GoVal, request.ty = rt →
        typeAssertOk request.ty info.requestType = true) ∧
    (∀ (et : GoType) (hs : List (eventHandlerInfo σ)),
      m.eventHandlers et = some hs → ∀ info ∈ hs,
      info.eventType = et ∧
      (∃ f, info.eventHandlerFunc = listenerWrap et f) ∧
      ∀ evt : GoVal, evt.ty = et →
        typeAssertOk evt.ty info.eventType = true) ∧
    (∀ (rt : GoType) (b : behaviourInfo σ), b ∈ m.getBehaviours rt →
      (∃ T f, b.requestType = T ∧ b.behaviourFunc = behaviourWrap T f) ∧
      (b.requestType = rt → ∀ request : GoVal, request.ty = rt →
        typeAssertOk request.ty b.requestType = true)) := by
  refine ⟨?_, ?_, ?_⟩
  · intro rt info h
    obtain ⟨hrt, f, hf⟩ := wf_handlers hm rt info h
    refine ⟨hrt, ⟨f, ?_⟩, ?_⟩
    · rw [hf]
      rfl
    · intro request hq
      rw [hq, hrt]
      exact typeAssertOk_self rt
  · intro et hs h info hin
    obtain ⟨het, f, hf⟩ := wf_events hm et hs h info hin
    refine ⟨het, ⟨f, ?_⟩, ?_⟩
    · rw [hf]
      rfl
    · intro evt hq
      rw [hq, het]
      exact typeAssertOk_self et
  · intro rt b hb
    have hbm : b ∈ m.behaviours := by
      rw [getBehaviours_eq_filter] at hb
      exact List.mem_of_mem_filter hb
    obtain ⟨T, f, hf⟩ := wf_behaviours hm b hbm
    refine ⟨⟨T, f, ?_, ?_⟩, ?_⟩
    · rw [hf]
      rfl
    · rw [hf]
      rfl
    · intro hrt request hq
      rw [hq, hrt]
      exact typeAssertOk_self rt

/-- Test-harness handler for the C10 amended witness. -/
def c10wHandler : Nat → Eff Unit (Nat × Option MErr) :=
  fun p s => (Except.ok (p, none), s)

def c10wMediator : mediator Unit :=
  RegisterHandler (NewMediator Unit) GoType.int GoType.int c10wHandler

theorem c10_assertions_witness :
    typeAssertOk GoType.int
      (mkHandlerInfo GoType.int GoType.int c10wHandler).requestType = true :=
  ((c10_assertions Unit c10wMediator
      (WellFormed.regHandler GoType.int GoType.int c10wHandler WellFormed.new)).1
    GoType.int (mkHandlerInfo GoType.int GoType.int c10wHandler) rfl).2.2
    ⟨GoType.int, 0⟩ rfl

/-- The Go declaration `type IntSlice []int`: a defined type whose
underlying type is the unnamed type `[]int`. -/
def tIntSlice : GoType := GoType.defined "IntSlice" (GoType.slice GoType.int)

/-- Test-harness handler for the C10 counterexample, registered for the
request type `[]int`. -/
def c10Handler : Nat → Eff Unit (Nat × Option MErr) :=
  fun p s => (Except.ok (p, none), s)

/-- Test-harness behaviour for the C10 counterexample, registered for
`IntSlice`: it merely forwards to `next`. -/
def c10Behaviour : Nat → Next Unit → Eff Unit GoRes :=
  fun _ next s => next s

def c10Mediator : mediator Unit :=
  RegisterBehaviour
    (RegisterHandler (NewMediator Unit) (GoType.slice GoType.int) GoType.int
      c10Handler)
    tIntSlice c10Behaviour

/-- Claim C10, counterexample: a request of the unnamed dynamic type
`[]int` finds its handler and matches (by assignability) a behaviour
registered for the defined type `IntSlice`, yet the behaviour wrapper's
type assertion of the request to `IntSlice` fails, so the dispatch panics —
the runtime type assertions inside the stored registration wrappers can
fail during a `Send` whose handler lookup succeeded. -/
theorem c10_counterexample :
    assignableTo (GoType.slice GoType.int) tIntSlice = true ∧
    (c10Mediator.handlers (GoType.slice GoType.int)).isSome = true ∧
    Send GoType.int c10Mediator ⟨GoType.slice GoType.int, 3⟩ ()
      = (Except.error
          (GoPanic.typeAssertionFailed (GoType.slice GoType.int) tIntSlice),
        ()) := by
  refine ⟨by decide, by decide, by decide⟩

end Mediatr
